import Mathlib

/-!
Verification of the Gemini proxy server (src/index.js).

The file shallowly embeds the two request handlers of the Express app:
POST /api/gemini_stream (lines 19-106) and POST /api/gemini_chat
(lines 109-153).  JavaScript values that the handlers inspect are
modelled by a small JSON datatype with JavaScript truthiness; the
handlers become pure functions from a per-request environment (request
body, configured credential, upstream behaviour, client-disconnect and
write-failure schedule) to an observable outcome (events written to the
client, HTTP status for early returns, clearInterval call count, abort
flag, number of upstream reads, whether an exception escaped).
-/

/-- JSON/JavaScript data values, as produced by express.json body parsing
and by the upstream response parsing in src/index.js. -/
inductive Json where
  | null
  | bool (b : Bool)
  | num (n : Int)
  | str (s : String)
  | arr (elems : List Json)
  | obj (fields : List (String × Json))

/-- JavaScript truthiness of a possibly-undefined value (`none` stands
for JavaScript undefined): null, false, 0 and the empty string are
falsy, arrays and objects are truthy. -/
def truthy : Option Json → Bool
  | none => false
  | some .null => false
  | some (.bool b) => b
  | some (.num n) => decide (n ≠ 0)
  | some (.str s) => decide (s ≠ "")
  | some (.arr _) => true
  | some (.obj _) => true

/-- JavaScript `a && b`: yields `a` when `a` is falsy, else `b`. -/
def jsAnd (a b : Option Json) : Option Json := if truthy a then b else a

/-- JavaScript `a || b`: yields `a` when `a` is truthy, else `b`. -/
def jsOr (a b : Option Json) : Option Json := if truthy a then a else b

/-- First-match lookup of a key in an object's field list. -/
def lookupField : List (String × Json) → String → Option Json
  | [], _ => none
  | (k, v) :: rest, key => if k = key then some v else lookupField rest key

/-- JavaScript property access `x.key`, total: access on a non-object
yields undefined (`none`).  In src/index.js every such access is either
on a known object or guarded by `&&`, so the null/undefined-throws case
of JavaScript is never reached. -/
def getField : Option Json → String → Option Json
  | some (.obj fields), key => lookupField fields key
  | _, _ => none

/-- JavaScript index access `x[i]`: array element, object property named
by the index, or one-character string for string indexing; undefined
otherwise. -/
def getIndex : Option Json → Nat → Option Json
  | some (.arr elems), i => elems.get? i
  | some (.obj fields), i => lookupField fields (toString i)
  | some (.str s), i =>
    match s.data.get? i with
    | some ch => some (.str (String.mk [ch]))
    | none => none
  | _, _ => none

/-- One hexadecimal digit, lowercase, for control-character escapes. -/
def hexDigit (n : Nat) : String :=
  String.mk [Char.ofNat (if n < 10 then 48 + n else 87 + n)]

/-- JSON.stringify escaping of one character inside a string literal. -/
def escapeChar (c : Char) : String :=
  if c = '"' then "\\\""
  else if c = '\\' then "\\\\"
  else if c = '\n' then "\\n"
  else if c = '\r' then "\\r"
  else if c = '\t' then "\\t"
  else if c = '\x08' then "\\b"
  else if c = '\x0c' then "\\f"
  else if c.toNat < 32 then "\\u00" ++ hexDigit (c.toNat / 16) ++ hexDigit (c.toNat % 16)
  else String.mk [c]

/-- JSON.stringify of a string value. -/
def escapeString (s : String) : String :=
  "\"" ++ String.join (s.data.map escapeChar) ++ "\""

mutual

/-- JavaScript JSON.stringify on a defined JSON value, as used for the
serialized-response fallback in src/index.js line 146. -/
def stringify : Json → String
  | .null => "null"
  | .bool true => "true"
  | .bool false => "false"
  | .num n => toString n
  | .str s => escapeString s
  | .arr elems => "[" ++ stringifyArr elems ++ "]"
  | .obj fields => "\x7b" ++ stringifyObj fields ++ "\x7d"

/-- Comma-separated serialization of array elements. -/
def stringifyArr : List Json → String
  | [] => ""
  | [x] => stringify x
  | x :: y :: rest => stringify x ++ "," ++ stringifyArr (y :: rest)

/-- Comma-separated serialization of object fields. -/
def stringifyObj : List (String × Json) → String
  | [] => ""
  | [(k, v)] => escapeString k ++ ":" ++ stringify v
  | (k, v) :: f :: rest => escapeString k ++ ":" ++ stringify v ++ "," ++ stringifyObj (f :: rest)

end

/-- The standard error body `\x7b error: msg \x7d` used by both handlers. -/
def jsonError (msg : String) : Json := .obj [("error", .str msg)]

/-- The `message` extraction shared by both handlers (src/index.js lines
20 and 110): `const \x7b message \x7d = req.body || \x7b\x7d`. -/
def reqMessage (reqBody : Option Json) : Option Json :=
  getField (jsOr reqBody (some (.obj []))) "message"

/-- The reply-extraction expression of src/index.js line 146:
`(data && data.candidates && data.candidates[0] && data.candidates[0].output)
 || (data && data.output && data.output[0] && data.output[0].content)
 || JSON.stringify(data)`. -/
def extractReply (data : Json) : Option Json :=
  jsOr
    (jsOr
      (jsAnd
        (jsAnd
          (jsAnd (some data) (getField (some data) "candidates"))
          (getIndex (getField (some data) "candidates") 0))
        (getField (getIndex (getField (some data) "candidates") 0) "output"))
      (jsAnd
        (jsAnd
          (jsAnd (some data) (getField (some data) "output"))
          (getIndex (getField (some data) "output") 0))
        (getField (getIndex (getField (some data) "output") 0) "content")))
    (some (.str (stringify data)))

/-- The reply extraction as the specification words it: a first-match-wins
fallback chain trying the candidates-list shape `candidates[0].output`,
then the alternate output-list shape `output[0].content`, else the raw
serialized response. -/
def specReply (data : Json) : Option Json :=
  if truthy (getField (getIndex (getField (some data) "candidates") 0) "output") then
    getField (getIndex (getField (some data) "candidates") 0) "output"
  else if truthy (getField (getIndex (getField (some data) "output") 0) "content") then
    getField (getIndex (getField (some data) "output") 0) "content"
  else
    some (.str (stringify data))

/-- Behaviour of the upstream fetch for the non-streaming handler:
the request timer fires first (abort, fetch rejects with AbortError),
the fetch rejects with a non-abort error, or a response arrives with an
ok flag and a parsed JSON body (`none` when `r.json()` rejects, which
the handler turns into null via `.catch(()=>null)`, line 144). -/
inductive ChatUpstream where
  | timeout
  | fetchFail (name : String)
  | response (ok : Bool) (parsed : Option Json)

/-- Observable outcome of one /api/gemini_chat request: HTTP status,
JSON body, whether the upstream fetch was issued, and whether the abort
controller was triggered. -/
structure ChatResult where
  status : Nat
  body : Json
  upstreamCalled : Bool
  abortCalled : Bool

/-- The POST /api/gemini_chat handler, src/index.js lines 109-153:
validation (lines 110-112), timeout abort (lines 118-119), upstream
call, upstream-failure branch (lines 138-142), reply extraction and
success response (lines 144-147), catch with AbortError distinction
(lines 148-152). -/
def geminiChat (reqBody : Option Json) (apiKey : Option String) (upstream : ChatUpstream) :
    ChatResult :=
  if truthy (reqMessage reqBody) = false then
    ⟨400, jsonError "message required", false, false⟩
  else if apiKey = none then
    ⟨500, jsonError "GEMINI_API_KEY not configured in server", false, false⟩
  else
    match upstream with
    | .timeout => ⟨504, jsonError "AI request timed out", true, true⟩
    | .fetchFail _ => ⟨500, jsonError "Internal server error", true, false⟩
    | .response ok parsed =>
      if ok = false then ⟨502, jsonError "Upstream AI API error", true, false⟩
      else
        let data := match parsed with | some j => j | none => Json.null
        let reply := match extractReply data with | some v => v | none => Json.null
        ⟨200, Json.obj [("reply", reply)], true, false⟩

/-- One server-sent data event written to the streaming client:
a relayed chunk `\x7b chunk \x7d` (line 90), the `[DONE]` completion
sentinel (line 93), or an error payload `\x7b error: msg \x7d`
(lines 70, 77, 100, 103).  Heartbeat comment lines (line 34) are SSE
comments, not data events, and are not recorded. -/
inductive SSEvent where
  | chunk (text : String)
  | done
  | error (msg : String)
deriving DecidableEq, Repr

/-- Behaviour of the upstream fetch for the streaming handler: the
request timer fires first (line 49: abort, fetch rejects with
AbortError), the fetch rejects with a non-abort error, or a response
arrives with an ok flag and an optional readable body given as the list
of chunks the upstream will produce, already text-decoded. -/
inductive StreamUpstream where
  | timeout
  | fetchFail (name : String)
  | response (ok : Bool) (body : Option (List String))

/-- Per-request environment of one POST /api/gemini_stream request.
Client-disconnect and write-failure behaviour is scheduled explicitly:

* `closedDuringFetch`: the client disconnects while the handler awaits
  the upstream fetch; the close listener (lines 40-45) sets the closed
  flag, clears the heartbeat and aborts the upstream call, so the fetch
  rejects with AbortError.
* `closedAtRead = some j`: the client disconnects while the handler
  awaits the j-th `reader.read()`; the close listener runs then.
* `readErrorAt = some j`: the j-th `reader.read()` rejects with a
  non-abort error.
* `writeFailFrom = some w`: `res.write` of a data event throws from the
  w-th write attempt onward (the client channel is gone for good, so
  write failure is monotone; heartbeat writes are try-ignored and not
  counted).  Disconnects and failures only take effect at the points the
  handler actually reaches. -/
structure StreamEnv where
  reqBody : Option Json
  apiKey : Option String
  closedDuringFetch : Bool
  upstream : StreamUpstream
  closedAtRead : Option Nat
  readErrorAt : Option Nat
  writeFailFrom : Option Nat

/-- Whether the closed flag has been set by the time read `i` has
returned: the close listener fired during some read `j ≤ i`. -/
def closedBy (closedAtRead : Option Nat) (i : Nat) : Bool :=
  match closedAtRead with
  | none => false
  | some j => decide (j ≤ i)

/-- Whether the data-write attempt with index `attempt` succeeds under
the monotone write-failure schedule. -/
def writeOk (writeFailFrom : Option Nat) (attempt : Nat) : Bool :=
  match writeFailFrom with
  | none => true
  | some w => decide (attempt < w)

/-- Observable outcome of the relay loop together with its post-loop
lines and the outer catch: the data events successfully written, the
number of clearInterval calls made from loop entry on (close listener
included when it fired during the loop), the number of `reader.read()`
calls, whether an exception escaped the handler, and whether the close
listener fired (which also aborts the upstream call). -/
structure RelayOut where
  events : List SSEvent
  clears : Nat
  reads : Nat
  threw : Bool
  closedFired : Bool
deriving DecidableEq, Repr

/-- The chunk-relay loop of src/index.js lines 84-95 plus the outer
catch (lines 96-105), processing the remaining upstream chunks starting
at read index `i` (so `i` write attempts have already succeeded).  Each
iteration awaits `reader.read()`, breaks on done, decodes the chunk,
breaks if the closed flag is set, and writes the chunk event inside a
try whose catch breaks the loop; after the loop, `[DONE]` is written
unless the closed flag is set, then the heartbeat is cleared and the
response ended.  A rejected read jumps to the outer catch, which clears
the heartbeat and writes a single internal-error event when the client
is still connected; a write failure inside the catch (monotone after a
previous failure) rethrows past the handler. -/
def relayFrom (cA rE wF : Option Nat) (chunks : List String) (i : Nat) : RelayOut :=
  match chunks with
  | [] =>
    if rE = some i then
      if closedBy cA i then ⟨[], 2, i + 1, false, true⟩
      else if writeOk wF i then ⟨[SSEvent.error "Internal server error"], 1, i + 1, false, false⟩
      else ⟨[], 1, i + 1, true, false⟩
    else if closedBy cA i then
      ⟨[], 2, i + 1, false, true⟩
    else if writeOk wF i then
      ⟨[SSEvent.done], 1, i + 1, false, false⟩
    else
      ⟨[], 1, i + 1, true, false⟩
  | c :: rest =>
    if rE = some i then
      if closedBy cA i then ⟨[], 2, i + 1, false, true⟩
      else if writeOk wF i then ⟨[SSEvent.error "Internal server error"], 1, i + 1, false, false⟩
      else ⟨[], 1, i + 1, true, false⟩
    else if closedBy cA i then
      ⟨[], 2, i + 1, false, true⟩
    else if writeOk wF i then
      let r := relayFrom cA rE wF rest (i + 1)
      ⟨SSEvent.chunk c :: r.events, r.clears, r.reads, r.threw, r.closedFired⟩
    else
      ⟨[], 1, i + 1, true, false⟩

/-- Observable outcome of one POST /api/gemini_stream request: the early
JSON response when validation fails (status and body, none once the SSE
stream is opened), the data events successfully written to the client,
whether the upstream fetch was issued, whether the abort controller was
triggered, how many clearInterval calls were made, how many
`reader.read()` calls were made, and whether an exception escaped the
handler. -/
structure StreamResult where
  early : Option (Nat × Json)
  events : List SSEvent
  upstreamCalled : Bool
  abortCalled : Bool
  clearCalls : Nat
  reads : Nat
  threw : Bool

/-- The POST /api/gemini_stream handler, src/index.js lines 19-106:
validation (lines 20-22), SSE setup with heartbeat and close listener
(lines 25-45), timeout abort (line 49), upstream fetch, the
upstream-not-ok branch (lines 67-73), the no-body branch (lines 76-80),
the chunk-relay loop (lines 82-95), and the outer catch with its
AbortError distinction (lines 96-105). -/
def geminiStream (env : StreamEnv) : StreamResult :=
  if truthy (reqMessage env.reqBody) = false then
    ⟨some (400, jsonError "message required"), [], false, false, 0, 0, false⟩
  else if env.apiKey = none then
    ⟨some (500, jsonError "GEMINI_API_KEY not configured in server"), [], false, false, 0, 0, false⟩
  else if env.closedDuringFetch then
    ⟨none, [], true, true, 2, 0, false⟩
  else
    match env.upstream with
    | .timeout =>
      if writeOk env.writeFailFrom 0 then
        ⟨none, [SSEvent.error "AI request timed out"], true, true, 1, 0, false⟩
      else ⟨none, [], true, true, 1, 0, true⟩
    | .fetchFail _ =>
      if writeOk env.writeFailFrom 0 then
        ⟨none, [SSEvent.error "Internal server error"], true, false, 1, 0, false⟩
      else ⟨none, [], true, false, 1, 0, true⟩
    | .response ok obody =>
      if ok = false then
        if writeOk env.writeFailFrom 0 then
          ⟨none, [SSEvent.error "Upstream error"], true, false, 1, 0, false⟩
        else ⟨none, [], true, false, 1, 0, true⟩
      else
        match obody with
        | none =>
          if writeOk env.writeFailFrom 0 then
            ⟨none, [SSEvent.error "No stream from upstream"], true, false, 1, 0, false⟩
          else ⟨none, [], true, false, 1, 0, true⟩
        | some chunks =>
          let r := relayFrom env.closedAtRead env.readErrorAt env.writeFailFrom chunks 0
          ⟨none, r.events, true, r.closedFired, r.clears, r.reads, r.threw⟩

/-- Number of error events in an event list. -/
def errorCount (evs : List SSEvent) : Nat :=
  evs.countP (fun e => match e with | .error _ => true | _ => false)

/-- Whether a request-body value is a JSON object. -/
def isObjVal : Option Json → Bool
  | some (.obj _) => true
  | _ => false

theorem truthy_jsAnd (a b : Option Json) : truthy (jsAnd a b) = (truthy a && truthy b) := by
  unfold jsAnd
  by_cases h : truthy a <;> simp [h]

theorem truthy_jsOr (a b : Option Json) : truthy (jsOr a b) = (truthy a || truthy b) := by
  unfold jsOr
  by_cases h : truthy a <;> simp [h]

theorem jsAnd_of_truthy {a : Option Json} (b : Option Json) (h : truthy a = true) :
    jsAnd a b = b := by
  simp [jsAnd, h]

theorem jsOr_of_truthy {a : Option Json} (b : Option Json) (h : truthy a = true) :
    jsOr a b = a := by
  simp [jsOr, h]

theorem jsOr_of_falsy {a : Option Json} (b : Option Json) (h : truthy a = false) :
    jsOr a b = b := by
  simp [jsOr, h]

theorem truthy_some {y : Option Json} (h : truthy y = true) : ∃ v, y = some v := by
  cases y with
  | none => simp [truthy] at h
  | some v => exact ⟨v, rfl⟩

theorem getField_some_obj {x : Option Json} {k : String} {v : Json}
    (h : getField x k = some v) : ∃ fields, x = some (Json.obj fields) := by
  cases x with
  | none => simp [getField] at h
  | some j => cases j <;> simp_all [getField]

theorem getIndex_some_truthy {x : Option Json} {i : Nat} {v : Json}
    (h : getIndex x i = some v) : truthy x = true := by
  cases x with
  | none => simp [getIndex] at h
  | some j =>
    cases j with
    | str s =>
      by_cases hs : s = ""
      · subst hs
        simp [getIndex, show ("".data : List Char) = [] from rfl] at h
      · simp [truthy, hs]
    | arr elems => rfl
    | obj fields => rfl
    | null => simp [getIndex] at h
    | bool b => simp [getIndex] at h
    | num n => simp [getIndex] at h

theorem chain_prefix_truthy {x : Option Json} {k1 : String} {i : Nat} {k2 : String}
    (h : truthy (getField (getIndex (getField x k1) i) k2) = true) :
    truthy x = true ∧ truthy (getField x k1) = true ∧
      truthy (getIndex (getField x k1) i) = true := by
  obtain ⟨v, hv⟩ := truthy_some h
  obtain ⟨fs, hB⟩ := getField_some_obj hv
  have hBt : truthy (getIndex (getField x k1) i) = true := by rw [hB]; rfl
  have hAt : truthy (getField x k1) = true := getIndex_some_truthy hB
  obtain ⟨u, hA⟩ := truthy_some hAt
  obtain ⟨gs, hx⟩ := getField_some_obj hA
  exact ⟨by rw [hx]; rfl, hAt, hBt⟩

theorem truthy_chain (x : Option Json) (k1 : String) (i : Nat) (k2 : String) :
    truthy (jsAnd (jsAnd (jsAnd x (getField x k1)) (getIndex (getField x k1) i))
      (getField (getIndex (getField x k1) i) k2))
    = truthy (getField (getIndex (getField x k1) i) k2) := by
  by_cases h : truthy (getField (getIndex (getField x k1) i) k2)
  · obtain ⟨hx, hA, hB⟩ := chain_prefix_truthy h
    simp [truthy_jsAnd, hx, hA, hB, h]
  · simp only [Bool.not_eq_true] at h
    simp [truthy_jsAnd, h]

theorem chain_val_of_truthy {x : Option Json} {k1 : String} {i : Nat} {k2 : String}
    (h : truthy (getField (getIndex (getField x k1) i) k2) = true) :
    jsAnd (jsAnd (jsAnd x (getField x k1)) (getIndex (getField x k1) i))
      (getField (getIndex (getField x k1) i) k2)
    = getField (getIndex (getField x k1) i) k2 := by
  obtain ⟨hx, hA, hB⟩ := chain_prefix_truthy h
  rw [jsAnd_of_truthy _ hx, jsAnd_of_truthy _ hA, jsAnd_of_truthy _ hB]

theorem extractReply_eq_specReply (data : Json) : extractReply data = specReply data := by
  unfold extractReply specReply
  by_cases h1 : truthy (getField (getIndex (getField (some data) "candidates") 0) "output")
  · rw [chain_val_of_truthy h1, jsOr_of_truthy _ h1, jsOr_of_truthy _ h1, if_pos h1]
  · have hc1 : truthy (jsAnd (jsAnd (jsAnd (some data)
        (getField (some data) "candidates"))
        (getIndex (getField (some data) "candidates") 0))
        (getField (getIndex (getField (some data) "candidates") 0) "output")) = false := by
      rw [truthy_chain]
      exact Bool.not_eq_true _ ▸ (by simpa using h1)
    rw [jsOr_of_falsy _ hc1, if_neg h1]
    by_cases h2 : truthy (getField (getIndex (getField (some data) "output") 0) "content")
    · rw [chain_val_of_truthy h2, jsOr_of_truthy _ h2, if_pos h2]
    · have hc2 : truthy (jsAnd (jsAnd (jsAnd (some data)
          (getField (some data) "output"))
          (getIndex (getField (some data) "output") 0))
          (getField (getIndex (getField (some data) "output") 0) "content")) = false := by
        rw [truthy_chain]
        simpa using h2
      rw [jsOr_of_falsy _ hc2, if_neg h2]

theorem getField_nonobj (x : Option Json) (k : String) (h : isObjVal x = false) :
    getField x k = none := by
  cases x with
  | none => rfl
  | some j => cases j <;> simp_all [isObjVal, getField]

theorem reqMessage_of_nonobj (rb : Option Json) (h : isObjVal rb = false) :
    reqMessage rb = none := by
  unfold reqMessage jsOr
  by_cases hT : truthy rb
  · rw [if_pos hT]
    exact getField_nonobj rb "message" h
  · rw [if_neg hT]
    rfl

/-- The upstream response body of the spec's concrete non-streaming
example: `\x7b candidates: [\x7b output: "hi there" \x7d] \x7d`. -/
def hiThereBody : Json :=
  .obj [("candidates", .arr [.obj [("output", .str "hi there")]])]

/-- An upstream response body whose extracted reply field is falsy (an
empty output string), used to exercise the serialization fallback. -/
def emptyOutputBody : Json :=
  .obj [("candidates", .arr [.obj [("output", .str "")]])]

/-- C8: for every successful non-streaming upstream response, the reply
is extracted by a first-match-wins fallback chain — the candidates-list
shape `candidates[0].output`, then the alternate output-list shape
`output[0].content`, else the raw serialized response — and in
particular an upstream body `\x7b candidates: [\x7b output: "hi there" \x7d] \x7d`
yields the response `\x7b reply: "hi there" \x7d`. -/
theorem reply_extraction_fallback_chain :
    (∀ data : Json, extractReply data = specReply data) ∧
    geminiChat (some (Json.obj [("message", Json.str "hi")])) (some "k")
      (ChatUpstream.response true (some hiThereBody)) =
      ⟨200, Json.obj [("reply", Json.str "hi there")], true, false⟩ :=
  ⟨extractReply_eq_specReply, rfl⟩

/-- C9: for every inbound POST whose body is absent or not a JSON
object, both endpoints treat it as a missing prompt and return the 400
`\x7b error: "message required" \x7d` response rather than throwing,
because the body is defaulted to an empty object before destructuring. -/
theorem missing_body_treated_as_missing_prompt (env : StreamEnv) (key : Option String)
    (uc : ChatUpstream) (h : isObjVal env.reqBody = false) :
    geminiStream env =
      ⟨some (400, jsonError "message required"), [], false, false, 0, 0, false⟩ ∧
    geminiChat env.reqBody key uc = ⟨400, jsonError "message required", false, false⟩ := by
  have hm : reqMessage env.reqBody = none := reqMessage_of_nonobj _ h
  constructor
  · unfold geminiStream
    rw [hm]
    rfl
  · unfold geminiChat
    rw [hm]
    rfl

theorem missing_body_treated_as_missing_prompt_witness :
    (isObjVal (none : Option Json) = false) ∧
    geminiStream ⟨none, some "key", false, StreamUpstream.response true (some []),
        none, none, none⟩ =
      ⟨some (400, jsonError "message required"), [], false, false, 0, 0, false⟩ ∧
    geminiChat none (some "key") (ChatUpstream.response true (some hiThereBody)) =
      ⟨400, jsonError "message required", false, false⟩ := by
  refine ⟨rfl, ?_, ?_⟩
  · exact (missing_body_treated_as_missing_prompt
      ⟨none, some "key", false, StreamUpstream.response true (some []), none, none, none⟩
      (some "key") (ChatUpstream.response true (some hiThereBody)) rfl).1
  · exact (missing_body_treated_as_missing_prompt
      ⟨none, some "key", false, StreamUpstream.response true (some []), none, none, none⟩
      (some "key") (ChatUpstream.response true (some hiThereBody)) rfl).2

/-- C10: for every non-streaming request whose upstream returns a
success status but a body that cannot be parsed as JSON (so the handler
falls back to null), or whose extracted reply fields are falsy such as
an empty output string, the endpoint still returns a 200 success
response whose reply is the JSON-serialization fallback — in the
unparseable case the literal string "null" — rather than an error. -/
theorem unparseable_body_still_success_serialized_reply (rb : Option Json) (key : String)
    (hmsg : truthy (reqMessage rb) = true) :
    geminiChat rb (some key) (ChatUpstream.response true none) =
      ⟨200, Json.obj [("reply", Json.str "null")], true, false⟩ ∧
    geminiChat rb (some key) (ChatUpstream.response true (some emptyOutputBody)) =
      ⟨200, Json.obj [("reply", Json.str (stringify emptyOutputBody))], true, false⟩ := by
  refine ⟨?_, ?_⟩
  · unfold geminiChat
    rw [hmsg]
    rfl
  · unfold geminiChat
    rw [hmsg]
    rfl

theorem unparseable_body_still_success_serialized_reply_witness :
    geminiChat (some (Json.obj [("message", Json.str "hi")])) (some "k")
      (ChatUpstream.response true none) =
      ⟨200, Json.obj [("reply", Json.str "null")], true, false⟩ ∧
    geminiChat (some (Json.obj [("message", Json.str "hi")])) (some "k")
      (ChatUpstream.response true (some emptyOutputBody)) =
      ⟨200, Json.obj [("reply", Json.str (stringify emptyOutputBody))], true, false⟩ :=
  unparseable_body_still_success_serialized_reply
    (some (Json.obj [("message", Json.str "hi")])) "k" rfl

theorem relayFrom_success (chunks : List String) (i : Nat) :
    relayFrom none none none chunks i =
      ⟨chunks.map SSEvent.chunk ++ [SSEvent.done], 1, i + chunks.length + 1, false, false⟩ := by
  induction chunks generalizing i with
  | nil => simp [relayFrom, closedBy, writeOk]
  | cons c rest ih =>
    simp only [relayFrom, closedBy, writeOk, ih (i + 1)]
    simp [RelayOut.mk.injEq]
    omega

theorem relayFrom_disconnect (n : Nat) (chunks : List String) (i : Nat)
    (hin : i ≤ n) (hlen : n ≤ i + chunks.length) :
    (relayFrom (some n) none none chunks i).events =
      (chunks.take (n - i)).map SSEvent.chunk := by
  induction chunks generalizing i with
  | nil =>
    have hni : n = i := by
      simp only [List.length_nil, Nat.add_zero] at hlen
      omega
    subst hni
    simp [relayFrom, closedBy]
  | cons c rest ih =>
    by_cases h : n ≤ i
    · have hni : n = i := Nat.le_antisymm h hin
      subst hni
      simp [relayFrom, closedBy]
    · have hlt : i < n := Nat.lt_of_not_le h
      have hc : closedBy (some n) i = false := by
        simp only [closedBy, decide_eq_false_iff_not]
        omega
      have hlen' : n ≤ i + 1 + rest.length := by
        simp only [List.length_cons] at hlen
        omega
      have htake : n - i = (n - (i + 1)) + 1 := by omega
      simp only [relayFrom]
      simp only [hc, writeOk, Bool.false_eq_true, if_false, reduceCtorEq, if_true]
      simp [ih (i + 1) hlt hlen', htake, List.take_succ_cons]

theorem relayFrom_writeFail (w : Nat) (chunks : List String) (i : Nat)
    (hin : i ≤ w) (hlen : w < i + chunks.length) :
    relayFrom none none (some w) chunks i =
      ⟨(chunks.take (w - i)).map SSEvent.chunk, 1, w + 1, true, false⟩ := by
  induction chunks generalizing i with
  | nil =>
    simp only [List.length_nil, Nat.add_zero] at hlen
    omega
  | cons c rest ih =>
    by_cases h : i < w
    · have hw : writeOk (some w) i = true := by
        simp only [writeOk, decide_eq_true_eq]
        omega
      have hlen' : w < i + 1 + rest.length := by
        simp only [List.length_cons] at hlen
        omega
      have htake : w - i = (w - (i + 1)) + 1 := by omega
      simp only [relayFrom]
      simp [closedBy, hw, ih (i + 1) h hlen', htake, List.take_succ_cons]
    · have hwi : w = i := by omega
      subst hwi
      simp [relayFrom, closedBy, writeOk]

theorem relayFrom_events_shape (cA rE wF : Option Nat) (chunks : List String) (i : Nat) :
    ∃ (pre : List String) (tail : List SSEvent),
      (relayFrom cA rE wF chunks i).events = pre.map SSEvent.chunk ++ tail ∧
      (tail = [] ∨ tail = [SSEvent.done] ∨ ∃ m, tail = [SSEvent.error m]) := by
  induction chunks generalizing i with
  | nil =>
    simp only [relayFrom]
    split
    · split
      · exact ⟨[], [], rfl, Or.inl rfl⟩
      · split
        · exact ⟨[], [SSEvent.error "Internal server error"], rfl, Or.inr (Or.inr ⟨_, rfl⟩)⟩
        · exact ⟨[], [], rfl, Or.inl rfl⟩
    · split
      · exact ⟨[], [], rfl, Or.inl rfl⟩
      · split
        · exact ⟨[], [SSEvent.done], rfl, Or.inr (Or.inl rfl)⟩
        · exact ⟨[], [], rfl, Or.inl rfl⟩
  | cons c rest ih =>
    simp only [relayFrom]
    split
    · split
      · exact ⟨[], [], rfl, Or.inl rfl⟩
      · split
        · exact ⟨[], [SSEvent.error "Internal server error"], rfl, Or.inr (Or.inr ⟨_, rfl⟩)⟩
        · exact ⟨[], [], rfl, Or.inl rfl⟩
    · split
      · exact ⟨[], [], rfl, Or.inl rfl⟩
      · split
        · obtain ⟨pre, tail, hev, ht⟩ := ih (i + 1)
          exact ⟨c :: pre, tail, by simp [hev], ht⟩
        · exact ⟨[], [], rfl, Or.inl rfl⟩

theorem relayFrom_clears (cA rE wF : Option Nat) (chunks : List String) (i : Nat) :
    1 ≤ (relayFrom cA rE wF chunks i).clears ∧ (relayFrom cA rE wF chunks i).clears ≤ 2 := by
  induction chunks generalizing i with
  | nil =>
    simp only [relayFrom]
    split
    · split
      · simp
      · split <;> simp
    · split
      · simp
      · split <;> simp
  | cons c rest ih =>
    simp only [relayFrom]
    split
    · split
      · simp
      · split <;> simp
    · split
      · simp
      · split
        · simpa using ih (i + 1)
        · simp

theorem errorCount_map_chunk (l : List String) : errorCount (l.map SSEvent.chunk) = 0 := by
  induction l with
  | nil => rfl
  | cons c rest ih => simp [errorCount, List.countP_cons, ih]

theorem relayFrom_terminal (cA rE wF : Option Nat) (chunks : List String) (i : Nat) :
    errorCount (relayFrom cA rE wF chunks i).events ≤ 1 ∧
    (SSEvent.done ∈ (relayFrom cA rE wF chunks i).events →
      ∀ m, SSEvent.error m ∉ (relayFrom cA rE wF chunks i).events) := by
  obtain ⟨pre, tail, hev, ht⟩ := relayFrom_events_shape cA rE wF chunks i
  rw [hev]
  constructor
  · have h1 : errorCount (pre.map SSEvent.chunk ++ tail) =
        errorCount (pre.map SSEvent.chunk) + errorCount tail := List.countP_append _ _ _
    rw [h1, errorCount_map_chunk]
    rcases ht with h | h | ⟨m, h⟩ <;> simp [h, errorCount]
  · intro hdone m hmem
    have hdone' : SSEvent.done ∈ tail := by
      rcases List.mem_append.mp hdone with h | h
      · exact absurd h (by simp)
      · exact h
    have hmem' : SSEvent.error m ∈ tail := by
      rcases List.mem_append.mp hmem with h | h
      · exact absurd h (by simp)
      · exact h
    rcases ht with h | h | ⟨m2, h⟩ <;> simp [h] at hdone' hmem' ⊢

/-- C1: for every successful streaming relay (upstream responds with a
success status and a readable body, the client never disconnects, and no
write fails), the sequence of chunk events emitted to the client exactly
matches, in order, the sequence of chunks the upstream produced,
followed by exactly one completion sentinel and no other data events. -/
theorem stream_success_relays_all_chunks_then_done (env : StreamEnv) (key : String)
    (chunks : List String)
    (hmsg : truthy (reqMessage env.reqBody) = true)
    (hkey : env.apiKey = some key)
    (hcf : env.closedDuringFetch = false)
    (hup : env.upstream = StreamUpstream.response true (some chunks))
    (hcl : env.closedAtRead = none)
    (hre : env.readErrorAt = none)
    (hwf : env.writeFailFrom = none) :
    (geminiStream env).events = chunks.map SSEvent.chunk ++ [SSEvent.done] := by
  unfold geminiStream
  rw [hmsg, hkey, hcf, hup, hcl, hre, hwf]
  simp [relayFrom_success]

theorem stream_success_relays_all_chunks_then_done_witness :
    (geminiStream ⟨some (Json.obj [("message", Json.str "hi")]), some "k", false,
        StreamUpstream.response true (some ["He", "llo"]), none, none, none⟩).events =
      ["He", "llo"].map SSEvent.chunk ++ [SSEvent.done] :=
  stream_success_relays_all_chunks_then_done _ "k" ["He", "llo"] rfl rfl rfl rfl rfl rfl rfl

/-- C2: for every streaming request and every execution path, at most
one terminal event sequence is ever sent to the client — either a
normal completion marker or exactly one error event, never both and
never more than one error event. -/
theorem stream_at_most_one_terminal_event (env : StreamEnv) :
    errorCount (geminiStream env).events ≤ 1 ∧
    (SSEvent.done ∈ (geminiStream env).events →
      ∀ m, SSEvent.error m ∉ (geminiStream env).events) := by
  unfold geminiStream
  split
  · simp [errorCount]
  · split
    · simp [errorCount]
    · split
      · simp [errorCount]
      · split
        · split <;> simp [errorCount]
        · split <;> simp [errorCount]
        · split
          · split <;> simp [errorCount]
          · split
            · split <;> simp [errorCount]
            · rename_i chunks heq
              simpa using relayFrom_terminal env.closedAtRead env.readErrorAt
                env.writeFailFrom chunks 0

/-- C3: if the upstream call does not complete within the configured
timeout, the upstream call is canceled via the abort controller and
exactly one timeout-specific error event is produced on the streaming
endpoint (only when the client is still connected; a disconnected
client gets no events), while the non-streaming endpoint returns 504
with the timeout error body. -/
theorem timeout_cancels_and_single_timeout_event
    (env e2 : StreamEnv) (key key2 : String) (rb : Option Json) (ck : String)
    (hmsg : truthy (reqMessage env.reqBody) = true)
    (hkey : env.apiKey = some key)
    (hcf : env.closedDuringFetch = false)
    (hup : env.upstream = StreamUpstream.timeout)
    (hwf : env.writeFailFrom = none)
    (hmsg2 : truthy (reqMessage e2.reqBody) = true)
    (hkey2 : e2.apiKey = some key2)
    (hcf2 : e2.closedDuringFetch = true)
    (hmsgc : truthy (reqMessage rb) = true) :
    ((geminiStream env).abortCalled = true ∧
      (geminiStream env).events = [SSEvent.error "AI request timed out"]) ∧
    ((geminiStream e2).abortCalled = true ∧ (geminiStream e2).events = []) ∧
    geminiChat rb (some ck) ChatUpstream.timeout =
      ⟨504, jsonError "AI request timed out", true, true⟩ := by
  refine ⟨⟨?_, ?_⟩, ⟨?_, ?_⟩, ?_⟩
  · unfold geminiStream
    rw [hmsg, hkey, hcf, hup, hwf]
    rfl
  · unfold geminiStream
    rw [hmsg, hkey, hcf, hup, hwf]
    rfl
  · unfold geminiStream
    rw [hmsg2, hkey2, hcf2]
    rfl
  · unfold geminiStream
    rw [hmsg2, hkey2, hcf2]
    rfl
  · unfold geminiChat
    rw [hmsgc]
    rfl

theorem timeout_cancels_and_single_timeout_event_witness :
    ((geminiStream ⟨some (Json.obj [("message", Json.str "hi")]), some "k", false,
        StreamUpstream.timeout, none, none, none⟩).abortCalled = true ∧
      (geminiStream ⟨some (Json.obj [("message", Json.str "hi")]), some "k", false,
        StreamUpstream.timeout, none, none, none⟩).events =
        [SSEvent.error "AI request timed out"]) ∧
    ((geminiStream ⟨some (Json.obj [("message", Json.str "hi")]), some "k2", true,
        StreamUpstream.timeout, none, none, none⟩).abortCalled = true ∧
      (geminiStream ⟨some (Json.obj [("message", Json.str "hi")]), some "k2", true,
        StreamUpstream.timeout, none, none, none⟩).events = []) ∧
    geminiChat (some (Json.obj [("message", Json.str "hi")])) (some "ck")
      ChatUpstream.timeout = ⟨504, jsonError "AI request timed out", true, true⟩ :=
  timeout_cancels_and_single_timeout_event _ _ "k" "k2"
    (some (Json.obj [("message", Json.str "hi")])) "ck" rfl rfl rfl rfl rfl rfl rfl rfl rfl

/-- C4: for every streaming request where the client disconnects after n
chunks have been relayed, no further chunk events and no completion
sentinel are emitted after the disconnect point: the read loop stops
without emitting the completion marker. -/
theorem disconnect_stops_chunks_and_done (env : StreamEnv) (key : String)
    (chunks : List String) (n : Nat)
    (hmsg : truthy (reqMessage env.reqBody) = true)
    (hkey : env.apiKey = some key)
    (hcf : env.closedDuringFetch = false)
    (hup : env.upstream = StreamUpstream.response true (some chunks))
    (hcl : env.closedAtRead = some n)
    (hre : env.readErrorAt = none)
    (hwf : env.writeFailFrom = none)
    (hn : n ≤ chunks.length) :
    (geminiStream env).events = (chunks.take n).map SSEvent.chunk ∧
    SSEvent.done ∉ (geminiStream env).events := by
  have hev : (geminiStream env).events = (chunks.take n).map SSEvent.chunk := by
    unfold geminiStream
    rw [hmsg, hkey, hcf, hup, hcl, hre, hwf]
    have h := relayFrom_disconnect n chunks 0 (Nat.zero_le n) (by simpa using hn)
    simpa using h
  refine ⟨hev, ?_⟩
  rw [hev]
  intro h
  obtain ⟨a, _, ha⟩ := List.mem_map.mp h
  exact SSEvent.noConfusion ha

theorem disconnect_stops_chunks_and_done_witness :
    (geminiStream ⟨some (Json.obj [("message", Json.str "hi")]), some "k", false,
        StreamUpstream.response true (some ["He", "llo", "!"]), some 2, none, none⟩).events =
      (["He", "llo", "!"].take 2).map SSEvent.chunk ∧
    SSEvent.done ∉ (geminiStream ⟨some (Json.obj [("message", Json.str "hi")]), some "k", false,
        StreamUpstream.response true (some ["He", "llo", "!"]), some 2, none, none⟩).events :=
  disconnect_stops_chunks_and_done _ "k" ["He", "llo", "!"] 2 rfl rfl rfl rfl rfl rfl rfl
    (by decide)

theorem stream_at_most_one_terminal_event_witness :
    errorCount (geminiStream ⟨some (Json.obj [("message", Json.str "hi")]), some "k", false,
        StreamUpstream.response true (some ["He"]), none, none, none⟩).events ≤ 1 ∧
    SSEvent.error "Upstream error" ∉ (geminiStream ⟨some (Json.obj [("message", Json.str "hi")]),
        some "k", false, StreamUpstream.response true (some ["He"]), none, none, none⟩).events :=
  ⟨(stream_at_most_one_terminal_event ⟨some (Json.obj [("message", Json.str "hi")]), some "k",
      false, StreamUpstream.response true (some ["He"]), none, none, none⟩).1,
    (stream_at_most_one_terminal_event ⟨some (Json.obj [("message", Json.str "hi")]), some "k",
      false, StreamUpstream.response true (some ["He"]), none, none, none⟩).2
      (by decide) "Upstream error"⟩

/-- C5 counterexample: the claim that the heartbeat timer is stopped
exactly once on every exit path fails on the disconnect path — with the
client disconnecting during the second body read, the close listener
(src/index.js line 42) and the post-loop cleanup (line 94) each call
clearInterval, so the timer is stopped twice. -/
theorem heartbeat_cleared_twice_on_disconnect :
    (geminiStream ⟨some (Json.obj [("message", Json.str "hi")]), some "key", false,
        StreamUpstream.response true (some ["a", "b", "c"]), some 1, none, none⟩).clearCalls = 2 ∧
    ¬((geminiStream ⟨some (Json.obj [("message", Json.str "hi")]), some "key", false,
        StreamUpstream.response true (some ["a", "b", "c"]), some 1, none, none⟩).clearCalls
      = 1) :=
  ⟨rfl, by decide⟩

/-- C5 amended: on every streaming request that passes validation, the
keep-alive timer is stopped at least once regardless of exit path — it
is never left running — and at most twice; it is stopped twice exactly
on the paths where the client-disconnect listener fires in addition to
the handler's own cleanup, the second clearInterval being a no-op. -/
theorem heartbeat_always_cleared (env : StreamEnv) (key : String)
    (hmsg : truthy (reqMessage env.reqBody) = true)
    (hkey : env.apiKey = some key) :
    1 ≤ (geminiStream env).clearCalls ∧ (geminiStream env).clearCalls ≤ 2 := by
  unfold geminiStream
  rw [hmsg, hkey]
  simp only [Bool.true_eq_false, if_false, reduceCtorEq]
  split
  · simp
  · split
    · split <;> simp
    · split <;> simp
    · split
      · split <;> simp
      · split
        · split <;> simp
        · rename_i chunks heq
          simpa using relayFrom_clears env.closedAtRead env.readErrorAt
            env.writeFailFrom chunks 0

theorem heartbeat_always_cleared_witness :
    1 ≤ (geminiStream ⟨some (Json.obj [("message", Json.str "hi")]), some "k", false,
        StreamUpstream.response false none, none, none, none⟩).clearCalls ∧
    (geminiStream ⟨some (Json.obj [("message", Json.str "hi")]), some "k", false,
        StreamUpstream.response false none, none, none, none⟩).clearCalls ≤ 2 :=
  heartbeat_always_cleared _ "k" rfl rfl

/-- C6: for every request with an empty or missing prompt, both
endpoints reject with 400 `\x7b error: "message required" \x7d` before
issuing any upstream call; for every request made while the credential
is not configured, both endpoints reject with 500
`\x7b error: "GEMINI_API_KEY not configured in server" \x7d` before
issuing any upstream call and before any stream data is emitted. -/
theorem validation_rejects_before_upstream (es : StreamEnv) (rb : Option Json)
    (key : Option String) (uc : ChatUpstream) :
    (truthy (reqMessage es.reqBody) = false →
      geminiStream es =
        ⟨some (400, jsonError "message required"), [], false, false, 0, 0, false⟩) ∧
    (truthy (reqMessage es.reqBody) = true → es.apiKey = none →
      geminiStream es =
        ⟨some (500, jsonError "GEMINI_API_KEY not configured in server"),
          [], false, false, 0, 0, false⟩) ∧
    (truthy (reqMessage rb) = false →
      geminiChat rb key uc = ⟨400, jsonError "message required", false, false⟩) ∧
    (truthy (reqMessage rb) = true → key = none →
      geminiChat rb key uc =
        ⟨500, jsonError "GEMINI_API_KEY not configured in server", false, false⟩) := by
  refine ⟨?_, ?_, ?_, ?_⟩
  · intro h
    unfold geminiStream
    rw [h]
    rfl
  · intro h hk
    unfold geminiStream
    rw [h, hk]
    rfl
  · intro h
    unfold geminiChat
    rw [h]
    rfl
  · intro h hk
    unfold geminiChat
    rw [h, hk]
    rfl

theorem validation_rejects_before_upstream_witness :
    (geminiStream ⟨some (Json.obj [("message", Json.str "")]), some "k", false,
        StreamUpstream.response true (some []), none, none, none⟩ =
      ⟨some (400, jsonError "message required"), [], false, false, 0, 0, false⟩) ∧
    (geminiStream ⟨some (Json.obj [("message", Json.str "hi")]), none, false,
        StreamUpstream.response true (some []), none, none, none⟩ =
      ⟨some (500, jsonError "GEMINI_API_KEY not configured in server"),
        [], false, false, 0, 0, false⟩) ∧
    (geminiChat (some (Json.obj [])) (some "k") ChatUpstream.timeout =
      ⟨400, jsonError "message required", false, false⟩) ∧
    (geminiChat (some (Json.obj [("message", Json.str "hi")])) none ChatUpstream.timeout =
      ⟨500, jsonError "GEMINI_API_KEY not configured in server", false, false⟩) :=
  ⟨(validation_rejects_before_upstream ⟨some (Json.obj [("message", Json.str "")]), some "k",
      false, StreamUpstream.response true (some []), none, none, none⟩
      (some (Json.obj [])) (some "k") ChatUpstream.timeout).1 rfl,
    (validation_rejects_before_upstream ⟨some (Json.obj [("message", Json.str "hi")]), none,
      false, StreamUpstream.response true (some []), none, none, none⟩
      (some (Json.obj [])) (some "k") ChatUpstream.timeout).2.1 rfl rfl,
    (validation_rejects_before_upstream ⟨some (Json.obj [("message", Json.str "")]), some "k",
      false, StreamUpstream.response true (some []), none, none, none⟩
      (some (Json.obj [])) (some "k") ChatUpstream.timeout).2.2.1 rfl,
    (validation_rejects_before_upstream ⟨some (Json.obj [("message", Json.str "")]), some "k",
      false, StreamUpstream.response true (some []), none, none, none⟩
      (some (Json.obj [("message", Json.str "hi")])) none ChatUpstream.timeout).2.2.2 rfl rfl⟩

/-- C7: for every streaming relay in which emitting a chunk event to the
client fails, the relay stops reading further upstream chunks (only
`w + 1` of the available reads happen), terminates the loop with only
the previously relayed chunks emitted, and does not emit any error
event for that failure. -/
theorem write_failure_silent_termination (env : StreamEnv) (key : String)
    (chunks : List String) (w : Nat)
    (hmsg : truthy (reqMessage env.reqBody) = true)
    (hkey : env.apiKey = some key)
    (hcf : env.closedDuringFetch = false)
    (hup : env.upstream = StreamUpstream.response true (some chunks))
    (hcl : env.closedAtRead = none)
    (hre : env.readErrorAt = none)
    (hwf : env.writeFailFrom = some w)
    (hw : w < chunks.length) :
    (geminiStream env).events = (chunks.take w).map SSEvent.chunk ∧
    (geminiStream env).reads = w + 1 ∧
    ∀ m, SSEvent.error m ∉ (geminiStream env).events := by
  have h := relayFrom_writeFail w chunks 0 (Nat.zero_le w) (by simpa using hw)
  have hev : (geminiStream env).events = (chunks.take w).map SSEvent.chunk := by
    unfold geminiStream
    rw [hmsg, hkey, hcf, hup, hcl, hre, hwf]
    simp [h]
  refine ⟨hev, ?_, ?_⟩
  · unfold geminiStream
    rw [hmsg, hkey, hcf, hup, hcl, hre, hwf]
    simp [h]
  · intro m hmem
    rw [hev] at hmem
    obtain ⟨a, _, ha⟩ := List.mem_map.mp hmem
    exact SSEvent.noConfusion ha

theorem write_failure_silent_termination_witness :
    (geminiStream ⟨some (Json.obj [("message", Json.str "hi")]), some "k", false,
        StreamUpstream.response true (some ["He", "llo", "!"]), none, none, some 1⟩).events =
      (["He", "llo", "!"].take 1).map SSEvent.chunk ∧
    (geminiStream ⟨some (Json.obj [("message", Json.str "hi")]), some "k", false,
        StreamUpstream.response true (some ["He", "llo", "!"]), none, none, some 1⟩).reads =
      1 + 1 ∧
    ∀ m, SSEvent.error m ∉ (geminiStream ⟨some (Json.obj [("message", Json.str "hi")]),
        some "k", false, StreamUpstream.response true (some ["He", "llo", "!"]),
        none, none, some 1⟩).events :=
  write_failure_silent_termination _ "k" ["He", "llo", "!"] 1 rfl rfl rfl rfl rfl rfl rfl
    (by decide)
